import Mathlib

/-!
Shallow embedding of `src/streamlit_app.py` (Advanced Email AI Analysis & Insights).

The script reads pasted email content, and on a button click runs a language
guard and then fans out sixteen independent AI completion calls through a
thread pool, one per insight kind, each built from a fixed prompt template
plus the email content truncated to `MAX_EMAIL_LENGTH`.  Results are joined,
displayed in a fixed order, and eight of them are serialized to a JSON export.

The completion service (`model.generate_content`) is modelled as an opaque
function from the full prompt string to `Except String String`: `ok` carries
the response text, `error` the raised exception's message.  Streamlit display
side effects (`st.error`, `st.info`) are modelled as explicit outcome values.
-/

deriving instance DecidableEq for Except

namespace EmailAI

/-- The sixteen AI-powered insight kinds submitted to the thread pool
(lines 79-94 of the source). -/
inductive InsightKind
  | summary
  | response
  | highlights
  | tone
  | urgency
  | tasks
  | subject
  | category
  | politeness
  | emotion
  | spam
  | rootCause
  | grammar
  | clarity
  | bestTime
  | professionalism
deriving DecidableEq, Repr, Fintype

/-- The `features` dict (lines 19-38): every toggle defaults to `True`.
The dict is declared at module level but never read by the processing block. -/
def features : List (String × Bool) :=
  [("sentiment", true), ("highlights", true), ("response", true), ("export", true),
   ("tone", true), ("urgency", true), ("task_extraction", true),
   ("subject_recommendation", true), ("category", true), ("politeness", true),
   ("emotion", true), ("spam_check", true), ("readability", true),
   ("root_cause", true), ("grammar_check", true), ("clarity", true),
   ("best_response_time", true), ("professionalism", true)]

/-- `MAX_EMAIL_LENGTH = 2000` (line 42). -/
def MAX_EMAIL_LENGTH : Nat := 2000

/-- The opaque completion service: full prompt string in, either a response
text (`ok`) or a raised exception message (`error`). -/
abbrev CompletionFn := String → Except String String

/-- Python's code-point slice `email_content[:n]` (line 49): the first `n`
characters of `s`, or all of `s` when it is shorter. -/
def takeChars (s : String) (n : Nat) : String := ⟨s.data.take n⟩

/-- Python's `str.strip()` (line 50): removes whitespace from both ends. -/
def strip (s : String) : String :=
  ⟨((s.data.dropWhile Char.isWhitespace).reverse.dropWhile Char.isWhitespace).reverse⟩

/-- Prompt template bound to each insight kind (the first argument of each
`executor.submit(get_ai_response, ...)` call, lines 79-94). -/
def promptOf : InsightKind → String
  | .summary => "Summarize this email concisely:\n\n"
  | .response => "Draft a professional response:\n\n"
  | .highlights => "Highlight key points:\n\n"
  | .tone => "Detect the tone of this email:\n\n"
  | .urgency => "Analyze urgency level:\n\n"
  | .tasks => "List actionable tasks:\n\n"
  | .subject => "Suggest a professional subject line:\n\n"
  | .category => "Categorize this email:\n\n"
  | .politeness => "Evaluate politeness score:\n\n"
  | .emotion => "Analyze emotions in this email:\n\n"
  | .spam => "Detect if this email is spam/scam:\n\n"
  | .rootCause => "Analyze the root cause of the email tone and sentiment:\n\n"
  | .grammar => "Check spelling & grammar mistakes and suggest fixes:\n\n"
  | .clarity => "Rate the clarity of this email:\n\n"
  | .bestTime => "Suggest the best time to respond to this email:\n\n"
  | .professionalism => "Rate the professionalism of this email on a scale of 1-10:\n\n"

/-- `get_ai_response` (lines 45-53), as the string it returns: on success the
trimmed completion text, on any exception the empty string.  The email content
is truncated to `MAX_EMAIL_LENGTH` characters before being appended to the
prompt (line 49). -/
def get_ai_response (cf : CompletionFn) (prompt email_content : String) : String :=
  match cf (prompt ++ takeChars email_content MAX_EMAIL_LENGTH) with
  | .ok t => strip t
  | .error _ => ""

/-- The `st.error` message emitted by `get_ai_response`'s `except` branch
(line 52); `none` when the completion call succeeds. -/
def get_ai_error (cf : CompletionFn) (prompt email_content : String) : Option String :=
  match cf (prompt ++ takeChars email_content MAX_EMAIL_LENGTH) with
  | .ok _ => none
  | .error e => some ("AI Error: " ++ e)

/-- Submission order of the sixteen `executor.submit` calls (lines 79-94). -/
def dispatchedKinds : List InsightKind :=
  [.summary, .response, .highlights, .tone, .urgency, .tasks, .subject,
   .category, .politeness, .emotion, .spam, .rootCause, .grammar, .clarity,
   .bestTime, .professionalism]

/-- The exact string handed to the completion service for kind `k`:
its prompt template followed by the truncated email content (line 49). -/
def argOf (email_content : String) (k : InsightKind) : String :=
  promptOf k ++ takeChars email_content MAX_EMAIL_LENGTH

/-- The joined fan-out (lines 79-113): each dispatched kind paired with the
string its `future.result()` yields, i.e. `get_ai_response` of its prompt. -/
def runAIResults (cf : CompletionFn) (email_content : String) :
    List (InsightKind × String) :=
  dispatchedKinds.map (fun k => (k, get_ai_response cf (promptOf k) email_content))

set_option linter.unusedVariables false in
/-- The fan-out as a function of an enabled-feature map.  The executor block
(lines 77-113) never reads the `features` dict, so the `enabled` parameter is
unused: every kind is dispatched unconditionally. -/
def runInsights (enabled : InsightKind → Bool) (cf : CompletionFn)
    (email_content : String) : List (InsightKind × String) :=
  runAIResults cf email_content

/-- Observable outcome of one script run: the info prompt of the `else` branch
(lines 172-173), the unsupported-language error (line 74), or the completed
insight mapping. -/
inductive RunOutcome
  | promptForInput
  | unsupportedLanguage
  | completed (results : List (InsightKind × String))
deriving DecidableEq, Repr

/-- One script run at a click event (lines 70-173): the outcome, together with
the list of argument strings passed to the completion service, in dispatch
order.  `clicked` models `st.button`; Python's truthiness test on
`email_content` is the non-emptiness check. -/
def processEmail (langDetect : String → String) (cf : CompletionFn)
    (clicked : Bool) (email_content : String) : RunOutcome × List String :=
  if email_content ≠ "" ∧ clicked = true then
    if langDetect email_content ≠ "en" then
      (.unsupportedLanguage, [])
    else
      (.completed (runAIResults cf email_content),
       dispatchedKinds.map (argOf email_content))
  else
    (.promptForInput, [])

/-- An item of the results page: one AI insight section, or one of the two
locally computed metric sections (sentiment, readability). -/
inductive DisplayedItem
  | ai (k : InsightKind)
  | sentimentLocal
  | readabilityLocal
deriving DecidableEq, Repr

/-- Order of the `st.subheader`/`st.write` sections (lines 116-158). -/
def displayOrder : List DisplayedItem :=
  [.ai .summary, .ai .response, .ai .highlights, .sentimentLocal, .ai .tone,
   .ai .urgency, .ai .tasks, .ai .category, .readabilityLocal, .ai .rootCause,
   .ai .grammar, .ai .clarity, .ai .bestTime, .ai .professionalism]

/-- `export_data` (lines 161-166): the JSON object offered for download, as an
ordered key/value list.  Each value is the corresponding future's result. -/
def export_data (cf : CompletionFn) (email_content : String) :
    List (String × String) :=
  [("summary", get_ai_response cf (promptOf .summary) email_content),
   ("response", get_ai_response cf (promptOf .response) email_content),
   ("highlights", get_ai_response cf (promptOf .highlights) email_content),
   ("root_cause", get_ai_response cf (promptOf .rootCause) email_content),
   ("grammar_issues", get_ai_response cf (promptOf .grammar) email_content),
   ("clarity_score", get_ai_response cf (promptOf .clarity) email_content),
   ("best_response_time", get_ai_response cf (promptOf .bestTime) email_content),
   ("professionalism_score", get_ai_response cf (promptOf .professionalism) email_content)]

/-- Boolean success test on a completion outcome. -/
def isOk : Except String String → Bool
  | .ok _ => true
  | .error _ => false

/-- One entry of the `st.cache_data` memo table: the argument pair of
`get_ai_response` it was stored under, its insertion time (seconds), and the
string the call returned. -/
structure CacheEntry where
  prompt : String
  content : String
  insertedAt : Nat
  value : String
deriving DecidableEq, Repr

/-- State of the memoization layer: stored entries, plus the number of
underlying model invocations made so far (used to index a possibly
non-deterministic completion service). -/
structure CacheState where
  entries : List CacheEntry
  calls : Nat
deriving DecidableEq, Repr

/-- `ttl=3600` of the `st.cache_data` decorator (line 45). -/
def cacheTTL : Nat := 3600

/-- Lookup in the memo table: an entry hits when BOTH of its stored arguments
equal the call's arguments and it is still fresh at time `now`.  The key is
the full `(prompt, email_content)` argument pair of `get_ai_response`. -/
def cacheLookup (entries : List CacheEntry) (prompt content : String)
    (now : Nat) : Option CacheEntry :=
  entries.find? (fun e =>
    e.prompt == prompt && e.content == content && decide (now < e.insertedAt + cacheTTL))

/-- `get_ai_response` under its `@st.cache_data(ttl=3600)` decorator: on a
fresh hit the stored string is returned and no model invocation happens; on a
miss the body runs once (consuming the next element of the invocation-indexed
completion service `cf`) and the returned string is stored under the full
argument pair. -/
def get_ai_response_cached (cf : Nat → CompletionFn) (st : CacheState)
    (now : Nat) (prompt email_content : String) : String × CacheState :=
  match cacheLookup st.entries prompt email_content now with
  | some e => (e.value, st)
  | none =>
    let r := get_ai_response (cf st.calls) prompt email_content
    (r, ⟨⟨prompt, email_content, now, r⟩ :: st.entries, st.calls + 1⟩)

/-! ## General lemmas about the fan-out -/

/-- Truncation is the identity on content not exceeding the bound. -/
theorem take_of_short (s : String) (n : Nat) (h : s.length ≤ n) :
    takeChars s n = s := by
  rw [takeChars, List.take_of_length_le h]

/-- The key list of the joined fan-out is exactly the dispatch list. -/
theorem runAIResults_keys (cf : CompletionFn) (email_content : String) :
    (runAIResults cf email_content).map Prod.fst = dispatchedKinds := rfl

/-- An enabled-kind map restricted to the summary kind only. -/
def onlySummary : InsightKind → Bool
  | .summary => true
  | _ => false

/-- A completion service that always succeeds with a fixed text. -/
def cfConst : CompletionFn := fun _ => .ok "ok-text"

/-! ## C1 -/

/-- C1 counterexample: with an enabled-kind map that enables only `summary`
(so `tone` is disabled and the claimed key set would be just `{summary}`),
the run's key list is still the full sixteen-kind dispatch list, and the
disabled kind `tone` appears in it — refuting "disabled kinds never appear"
and "the key set equals K union the mandatory kinds". -/
theorem C1_counterexample :
    onlySummary .tone = false ∧
    (runInsights onlySummary cfConst "Hello team").map Prod.fst ≠ [.summary] ∧
    InsightKind.tone ∈ (runInsights onlySummary cfConst "Hello team").map Prod.fst := by
  refine ⟨rfl, ?_, ?_⟩ <;> · rw [runInsights, runAIResults_keys]; decide

/-- C1 amended: the run's key list is always the full fixed sixteen-kind
dispatch list, independent of the enabled-feature map — the `features` dict
(every toggle `true` by default) is never consulted by the fan-out, so kinds
disabled in the map still appear, exactly once each. -/
theorem C1_key_set (enabled : InsightKind → Bool) (cf : CompletionFn)
    (email_content : String) :
    (runInsights enabled cf email_content).map Prod.fst = dispatchedKinds ∧
    runInsights enabled cf email_content =
      runInsights (fun _ => true) cf email_content ∧
    dispatchedKinds.Nodup ∧
    ∀ kv ∈ features, kv.2 = true := by
  refine ⟨runAIResults_keys cf email_content, rfl, by decide, by decide⟩

/-! ## C6 -/

/-- C6: when the detected language of a (non-empty) email is not "en", the run
ends in the unsupported-language error and the completion-call trace is empty:
no completion call is dispatched at all. -/
theorem C6_language_guard (langDetect : String → String) (cf : CompletionFn)
    (email_content : String) (hne : email_content ≠ "")
    (hlang : langDetect email_content ≠ "en") :
    processEmail langDetect cf true email_content = (.unsupportedLanguage, []) := by
  simp [processEmail, hne, hlang]

/-- C6 witness: a concrete French-detected email. -/
theorem C6_language_guard_witness :
    processEmail (fun _ => "fr") cfConst true "Bonjour" = (.unsupportedLanguage, []) :=
  C6_language_guard (fun _ => "fr") cfConst "Bonjour" (by decide) (by decide)

/-! ## C7 -/

/-- C7: with empty email content the run never reaches dispatch: the outcome is
the input prompt of the `else` branch and the completion-call trace is empty,
whatever the completion service, language detector or button state. -/
theorem C7_empty_input (langDetect : String → String) (cf : CompletionFn)
    (clicked : Bool) :
    processEmail langDetect cf clicked "" = (.promptForInput, []) := by
  simp [processEmail]

/-! ## C8 -/

/-- C8: every run that reaches dispatch (non-empty content, English detected)
computes the summary insight, for every enabled-feature map — including the
all-disabled map — since the fan-out dispatches `summary` unconditionally. -/
theorem C8_mandatory_summary (enabled : InsightKind → Bool)
    (langDetect : String → String) (cf : CompletionFn) (email_content : String)
    (hne : email_content ≠ "") (hen : langDetect email_content = "en") :
    (processEmail langDetect cf true email_content).1 =
      .completed (runInsights enabled cf email_content) ∧
    (InsightKind.summary,
      get_ai_response cf (promptOf .summary) email_content) ∈
        runInsights enabled cf email_content := by
  constructor
  · simp [processEmail, hne, hen, runInsights]
  · exact List.mem_map_of_mem _ (by decide)

/-- C8 witness: concrete run with the all-disabled feature map. -/
theorem C8_mandatory_summary_witness :
    (processEmail (fun _ => "en") cfConst true "Hi").1 =
      .completed (runInsights (fun _ => false) cfConst "Hi") ∧
    (InsightKind.summary, get_ai_response cfConst (promptOf .summary) "Hi") ∈
      runInsights (fun _ => false) cfConst "Hi" :=
  C8_mandatory_summary (fun _ => false) (fun _ => "en") cfConst "Hi"
    (by decide) rfl

/-! ## C2 -/

/-- C2: per-kind failure isolation.  When the completion call of one kind `k`
fails while every other kind's call succeeds, the run still completes; kind
`k`'s result is the empty string and its error description is displayed; every
other kind shows no error; and each kind's result depends only on the
completion service's value at its own argument, so one kind's failure never
alters a sibling's result. -/
theorem C2_isolation (langDetect : String → String) (cf : CompletionFn)
    (email_content : String) (k : InsightKind) (e : String)
    (hne : email_content ≠ "") (hen : langDetect email_content = "en")
    (hfail : cf (argOf email_content k) = .error e)
    (hok : ∀ j : InsightKind, j ≠ k → isOk (cf (argOf email_content j)) = true) :
    (processEmail langDetect cf true email_content).1 =
      .completed (runAIResults cf email_content) ∧
    get_ai_response cf (promptOf k) email_content = "" ∧
    get_ai_error cf (promptOf k) email_content = some ("AI Error: " ++ e) ∧
    (∀ j : InsightKind, j ≠ k → get_ai_error cf (promptOf j) email_content = none) ∧
    (∀ j : InsightKind, ∀ cf2 : CompletionFn,
      cf2 (argOf email_content j) = cf (argOf email_content j) →
      get_ai_response cf2 (promptOf j) email_content =
        get_ai_response cf (promptOf j) email_content) := by
  rw [argOf] at hfail
  refine ⟨by simp [processEmail, hne, hen], ?_, ?_, ?_, ?_⟩
  · simp only [get_ai_response, hfail]
  · simp only [get_ai_error, hfail]
  · intro j hj
    have h := hok j hj
    rw [argOf] at h
    cases hcf : cf (promptOf j ++ takeChars email_content MAX_EMAIL_LENGTH) with
    | ok t => simp only [get_ai_error, hcf]
    | error e2 => rw [hcf] at h; simp [isOk] at h
  · intro j cf2 hagree
    rw [argOf] at hagree
    simp only [get_ai_response, hagree]

/-- A completion service failing exactly on prompts of the tone kind (no
other kind's prompt template begins with the tone template). -/
def c2cf : CompletionFn := fun s =>
  if (promptOf .tone).data.isPrefixOf s.data then .error "boom" else .ok "fine"

/-- C2 witness: concrete run in which only the tone completion call fails. -/
theorem C2_isolation_witness :
    (processEmail (fun _ => "en") c2cf true "Hello team").1 =
      .completed (runAIResults c2cf "Hello team") ∧
    get_ai_response c2cf (promptOf .tone) "Hello team" = "" ∧
    get_ai_error c2cf (promptOf .tone) "Hello team" =
      some ("AI Error: " ++ "boom") ∧
    (∀ j : InsightKind, j ≠ .tone →
      get_ai_error c2cf (promptOf j) "Hello team" = none) ∧
    (∀ j : InsightKind, ∀ cf2 : CompletionFn,
      cf2 (argOf "Hello team" j) = c2cf (argOf "Hello team" j) →
      get_ai_response cf2 (promptOf j) "Hello team" =
        get_ai_response c2cf (promptOf j) "Hello team") :=
  C2_isolation (fun _ => "en") c2cf "Hello team" .tone "boom"
    (by decide) rfl
    (by rw [argOf, take_of_short _ _ (by decide)]; decide)
    (by intro j hj
        rw [argOf, take_of_short _ _ (by decide)]
        revert hj
        cases j <;> decide)

/-! ## C4 -/

/-- C4: join-all semantics.  A run that reaches dispatch completes with a
merged result containing exactly one entry per dispatched kind — the resolved
value (success or failure) of that kind's completion call — so no kind is
missing from the merged result that display and export consume. -/
theorem C4_join_all (langDetect : String → String) (cf : CompletionFn)
    (email_content : String) (hne : email_content ≠ "")
    (hen : langDetect email_content = "en") :
    (processEmail langDetect cf true email_content).1 =
      .completed (runAIResults cf email_content) ∧
    (runAIResults cf email_content).map Prod.fst = dispatchedKinds ∧
    ∀ k ∈ dispatchedKinds,
      (k, get_ai_response cf (promptOf k) email_content) ∈
        runAIResults cf email_content := by
  refine ⟨by simp [processEmail, hne, hen], runAIResults_keys cf email_content, ?_⟩
  intro k hk
  exact List.mem_map_of_mem _ hk

/-- C4 witness: concrete completed run. -/
theorem C4_join_all_witness :
    (processEmail (fun _ => "en") cfConst true "Hi all").1 =
      .completed (runAIResults cfConst "Hi all") ∧
    (runAIResults cfConst "Hi all").map Prod.fst = dispatchedKinds ∧
    ∀ k ∈ dispatchedKinds,
      (k, get_ai_response cfConst (promptOf k) "Hi all") ∈
        runAIResults cfConst "Hi all" :=
  C4_join_all (fun _ => "en") cfConst "Hi all" (by decide) rfl

/-! ## C10 -/

/-- C10: a failed completion call is indistinguishable from an empty success
at the result interface.  A failing call yields the value `""`; a call that
succeeds with the empty text also yields `""`; and the export entry of a
failed kind (here `clarity`) is exactly `("clarity_score", "")` — the result
mapping and the export carry plain strings with no error field. -/
theorem C10_failure_indistinguishable (cf cfe : CompletionFn)
    (p c content e e2 : String)
    (hfail : cf (p ++ takeChars c MAX_EMAIL_LENGTH) = .error e)
    (hok : cfe (p ++ takeChars c MAX_EMAIL_LENGTH) = .ok "")
    (hfc : cf (argOf content .clarity) = .error e2) :
    get_ai_response cf p c = "" ∧
    get_ai_response cf p c = get_ai_response cfe p c ∧
    ("clarity_score", "") ∈ export_data cf content := by
  have h1 : get_ai_response cf p c = "" := by simp only [get_ai_response, hfail]
  have h2 : get_ai_response cfe p c = "" := by
    simp only [get_ai_response, hok]
    decide
  have h3 : get_ai_response cf (promptOf .clarity) content = "" := by
    rw [argOf] at hfc
    simp only [get_ai_response, hfc]
  refine ⟨h1, h1.trans h2.symm, ?_⟩
  simp [export_data, h3]

/-- A completion service that always fails. -/
def c10fail : CompletionFn := fun _ => .error "down"

/-- A completion service that always succeeds with the empty text. -/
def c10empty : CompletionFn := fun _ => .ok ""

/-- C10 witness: the always-failing and the empty-success services yield the
same stored value. -/
theorem C10_failure_indistinguishable_witness :
    get_ai_response c10fail "P" "body" = "" ∧
    get_ai_response c10fail "P" "body" = get_ai_response c10empty "P" "body" ∧
    ("clarity_score", "") ∈ export_data c10fail "body" :=
  C10_failure_indistinguishable c10fail c10empty "P" "body" "body" "down" "down"
    rfl rfl rfl

/-! ## C3 -/

/-- Length of the truncated content. -/
theorem length_takeChars (s : String) (n : Nat) :
    (takeChars s n).length = min n s.length := by
  show (s.data.take n).length = min n s.data.length
  exact List.length_take n s.data

/-- C3: truncation consistency.  In a run over content exceeding the bound,
every dispatched completion call receives its prompt template followed by the
one shared truncated string `takeChars email_content MAX_EMAIL_LENGTH`, whose
length is exactly the bound (strictly less than the content's length). -/
theorem C3_truncation (langDetect : String → String) (cf : CompletionFn)
    (email_content : String) (hne : email_content ≠ "")
    (hen : langDetect email_content = "en")
    (hlong : MAX_EMAIL_LENGTH < email_content.length) :
    (processEmail langDetect cf true email_content).2 =
      dispatchedKinds.map (argOf email_content) ∧
    (∀ k : InsightKind, argOf email_content k =
      promptOf k ++ takeChars email_content MAX_EMAIL_LENGTH) ∧
    (takeChars email_content MAX_EMAIL_LENGTH).length = MAX_EMAIL_LENGTH ∧
    (takeChars email_content MAX_EMAIL_LENGTH).length < email_content.length := by
  have hlen : (takeChars email_content MAX_EMAIL_LENGTH).length = MAX_EMAIL_LENGTH := by
    rw [length_takeChars]
    exact Nat.min_eq_left (Nat.le_of_lt hlong)
  refine ⟨by simp [processEmail, hne, hen], fun k => rfl, hlen, ?_⟩
  rw [hlen]
  exact hlong

/-- A 2001-character email body, one character beyond the truncation bound. -/
def longContent : String := ⟨List.replicate 2001 'a'⟩

/-- The over-long body has 2001 characters. -/
theorem longContent_length : longContent.length = 2001 := by
  show (List.replicate 2001 'a').length = 2001
  exact List.length_replicate 2001 'a'

/-- The over-long body is non-empty. -/
theorem longContent_ne_empty : longContent ≠ "" := by
  intro h
  have hl := congrArg String.length h
  rw [longContent_length] at hl
  exact absurd hl (by decide)

/-- C3 witness: concrete over-long content. -/
theorem C3_truncation_witness :
    (processEmail (fun _ => "en") cfConst true longContent).2 =
      dispatchedKinds.map (argOf longContent) ∧
    (∀ k : InsightKind, argOf longContent k =
      promptOf k ++ takeChars longContent MAX_EMAIL_LENGTH) ∧
    (takeChars longContent MAX_EMAIL_LENGTH).length = MAX_EMAIL_LENGTH ∧
    (takeChars longContent MAX_EMAIL_LENGTH).length < longContent.length :=
  C3_truncation (fun _ => "en") cfConst longContent
    longContent_ne_empty rfl
    (by rw [longContent_length]; decide)

/-! ## C9 -/

/-- C9 counterexample: the politeness insight is computed (it is dispatched in
the fan-out) but appears nowhere among the displayed sections — refuting the
claim that every computed, non-exported insight is displayed. -/
theorem C9_counterexample :
    InsightKind.politeness ∈ dispatchedKinds ∧
    DisplayedItem.ai .politeness ∉ displayOrder := by
  decide

/-- C9 amended: the export carries exactly the eight listed keys and none of
the other computed insights; of those others, tone, urgency, tasks and
category (plus the local sentiment and readability metrics) are displayed,
while the subject recommendation, politeness, emotion and spam insights are
computed but neither displayed nor exported. -/
theorem C9_export_structure (cf : CompletionFn) (email_content : String) :
    (export_data cf email_content).map Prod.fst =
      ["summary", "response", "highlights", "root_cause", "grammar_issues",
       "clarity_score", "best_response_time", "professionalism_score"] ∧
    (∀ k : InsightKind, DisplayedItem.ai k ∈ displayOrder ↔
      k ∈ ([.summary, .response, .highlights, .tone, .urgency, .tasks,
            .category, .rootCause, .grammar, .clarity, .bestTime,
            .professionalism] : List InsightKind)) ∧
    DisplayedItem.sentimentLocal ∈ displayOrder ∧
    DisplayedItem.readabilityLocal ∈ displayOrder ∧
    (∀ key ∈ (["tone", "urgency", "tasks", "subject_recommendation",
       "category", "politeness", "emotion", "spam_status", "sentiment",
       "readability"] : List String),
      key ∉ (export_data cf email_content).map Prod.fst) := by
  refine ⟨rfl, by decide, by decide, by decide, ?_⟩
  rw [show (export_data cf email_content).map Prod.fst =
    ["summary", "response", "highlights", "root_cause", "grammar_issues",
     "clarity_score", "best_response_time", "professionalism_score"] from rfl]
  decide

/-! ## C5 -/

/-- Unfolding of the cached call on a cache miss: the body runs once, the
returned string is stored under the full argument pair, and the invocation
counter advances. -/
theorem cached_miss (cf : Nat → CompletionFn) (st : CacheState)
    (now : Nat) (p c : String)
    (hmiss : cacheLookup st.entries p c now = none) :
    get_ai_response_cached cf st now p c =
      (get_ai_response (cf st.calls) p c,
       ⟨⟨p, c, now, get_ai_response (cf st.calls) p c⟩ :: st.entries,
        st.calls + 1⟩) := by
  rw [get_ai_response_cached, hmiss]

/-- C5 amended: the memoization key is the FULL argument pair
`(prompt, email_content)`.  After a miss at time `t1`, a second call with the
same prompt and the same full content at any time `t2` inside the freshness
window returns exactly the text computed by the first call and performs no
further model invocation — for every (possibly non-deterministic,
invocation-indexed) completion service. -/
theorem C5_memoization_full_key (cf : Nat → CompletionFn) (st : CacheState)
    (t1 t2 : Nat) (p c : String)
    (hmiss : cacheLookup st.entries p c t1 = none)
    (hfresh : t2 < t1 + cacheTTL) :
    (get_ai_response_cached cf (get_ai_response_cached cf st t1 p c).2
        t2 p c).1 =
      (get_ai_response_cached cf st t1 p c).1 ∧
    (get_ai_response_cached cf (get_ai_response_cached cf st t1 p c).2
        t2 p c).2.calls =
      (get_ai_response_cached cf st t1 p c).2.calls := by
  rw [cached_miss cf st t1 p c hmiss]
  have hhit : cacheLookup
      (⟨p, c, t1, get_ai_response (cf st.calls) p c⟩ :: st.entries) p c t2 =
      some ⟨p, c, t1, get_ai_response (cf st.calls) p c⟩ := by
    rw [cacheLookup, List.find?_cons]
    simp [decide_eq_true hfresh]
  rw [get_ai_response_cached, hhit]
  exact ⟨rfl, rfl⟩

/-- C5 amended witness: two concrete identical calls within the window. -/
theorem C5_memoization_full_key_witness :
    (get_ai_response_cached (fun i _ => .ok (if i = 0 then "first" else "second"))
        (get_ai_response_cached (fun i _ => .ok (if i = 0 then "first" else "second"))
          ⟨[], 0⟩ 0 "Q" "mail").2 10 "Q" "mail").1 =
      (get_ai_response_cached (fun i _ => .ok (if i = 0 then "first" else "second"))
        ⟨[], 0⟩ 0 "Q" "mail").1 ∧
    (get_ai_response_cached (fun i _ => .ok (if i = 0 then "first" else "second"))
        (get_ai_response_cached (fun i _ => .ok (if i = 0 then "first" else "second"))
          ⟨[], 0⟩ 0 "Q" "mail").2 10 "Q" "mail").2.calls =
      (get_ai_response_cached (fun i _ => .ok (if i = 0 then "first" else "second"))
        ⟨[], 0⟩ 0 "Q" "mail").2.calls :=
  C5_memoization_full_key (fun i _ => .ok (if i = 0 then "first" else "second"))
    ⟨[], 0⟩ 0 10 "Q" "mail" rfl (by decide)

/-- Email content agreeing with `longContent` on the first 2000 characters
but differing at position 2000. -/
def longContent2 : String := ⟨List.replicate 2000 'a' ++ ['b']⟩

/-- A non-deterministic completion service: the first model invocation
returns "first", every later one returns "second". -/
def c5cf : Nat → CompletionFn := fun i _ => .ok (if i = 0 then "first" else "second")

/-- The two long bodies share their truncated 2000-character slice. -/
theorem longContents_same_slice :
    takeChars longContent MAX_EMAIL_LENGTH = takeChars longContent2 MAX_EMAIL_LENGTH := by
  show (⟨(List.replicate 2001 'a').take 2000⟩ : String) =
    ⟨(List.replicate 2000 'a' ++ ['b']).take 2000⟩
  rw [show (2001 : Nat) = 2000 + 1 from rfl, List.replicate_add,
      List.take_left' (List.length_replicate 2000 'a'),
      List.take_left' (List.length_replicate 2000 'a')]

/-- The two long bodies are different strings. -/
theorem longContents_ne : longContent ≠ longContent2 := by
  intro h
  have hd : List.replicate 2000 'a' ++ List.replicate 1 'a' =
      List.replicate 2000 'a' ++ ['b'] := by
    rw [← List.replicate_add]
    exact congrArg String.data h
  have := List.append_cancel_left hd
  simp [List.replicate] at this

/-- C5 counterexample: the prompt and the truncated 2000-character slice of
the two calls coincide, the second call happens one second after the first
(well inside the one-hour window), yet with a non-deterministic completion
service the second call returns "second" while the first returned "first" —
because the cache keys on the FULL content, not on the truncated slice. -/
theorem C5_counterexample :
    takeChars longContent MAX_EMAIL_LENGTH = takeChars longContent2 MAX_EMAIL_LENGTH ∧
    (1 : Nat) < 0 + cacheTTL ∧
    (get_ai_response_cached c5cf ⟨[], 0⟩ 0 "P:" longContent).1 = "first" ∧
    (get_ai_response_cached c5cf
        (get_ai_response_cached c5cf ⟨[], 0⟩ 0 "P:" longContent).2
        1 "P:" longContent2).1 = "second" ∧
    ("first" : String) ≠ "second" := by
  have hr1 : get_ai_response (c5cf 0) "P:" longContent = "first" := by
    have h : c5cf 0 ("P:" ++ takeChars longContent MAX_EMAIL_LENGTH) = .ok "first" := by
      simp [c5cf]
    simp only [get_ai_response, h]
    decide
  have hr2 : get_ai_response (c5cf 1) "P:" longContent2 = "second" := by
    have h : c5cf 1 ("P:" ++ takeChars longContent2 MAX_EMAIL_LENGTH) = .ok "second" := by
      simp [c5cf]
    simp only [get_ai_response, h]
    decide
  have hc1 : get_ai_response_cached c5cf ⟨[], 0⟩ 0 "P:" longContent =
      ("first", ⟨[⟨"P:", longContent, 0, "first"⟩], 1⟩) := by
    rw [cached_miss c5cf ⟨[], 0⟩ 0 "P:" longContent rfl, hr1]
  have hm2 : cacheLookup [⟨"P:", longContent, 0, "first"⟩] "P:" longContent2 1 = none := by
    rw [cacheLookup, List.find?_cons]
    simp [beq_eq_false_iff_ne.mpr longContents_ne]
  have hc2 : get_ai_response_cached c5cf ⟨[⟨"P:", longContent, 0, "first"⟩], 1⟩
      1 "P:" longContent2 = ("second",
        ⟨[⟨"P:", longContent2, 1, "second"⟩, ⟨"P:", longContent, 0, "first"⟩], 2⟩) := by
    rw [cached_miss c5cf ⟨[⟨"P:", longContent, 0, "first"⟩], 1⟩ 1 "P:" longContent2 hm2, hr2]
  refine ⟨longContents_same_slice, by decide, ?_, ?_, by decide⟩
  · rw [hc1]
  · rw [hc1, hc2]

end EmailAI
